import Mathlib

/-!
Verification of the checktable data-error-testing core.

The development shallowly embeds the two modules of the repository:

* helpers.py — the Redshift-to-numpy type normalizer: tokenization of a
  type string, alias resolution, kind mapping, bound derivation and the
  final widening step (the function dtype_converter and the helper
  functions it is built from).

* checktable.py — the table validator: the per-column maximum-size
  computation, the size-error, null-count, not-null-constraint-error and
  superkey-error checks of the CheckTable class, embedded over an
  explicit table model (ordered columns, each a list of cells that are
  null, an integral number, or a text value).

Machine floats only ever carry integral magnitudes or the NaN sentinel
in the checked code paths, so numeric cells are modelled as Int and NaN
as an explicit sentinel. Python dicts are modelled as ordered
association lists (insertion order is observable and the column lists
rely on it).
-/

/-! ## helpers.py — the type normalizer -/

instance {ε α : Type} [DecidableEq ε] [DecidableEq α] : DecidableEq (Except ε α) := fun a b =>
  match a, b with
  | .ok x, .ok y =>
    if h : x = y then .isTrue (by rw [h]) else .isFalse (by intro hc; cases hc; exact h rfl)
  | .error x, .error y =>
    if h : x = y then .isTrue (by rw [h]) else .isFalse (by intro hc; cases hc; exact h rfl)
  | .ok _, .error _ => .isFalse (by intro hc; cases hc)
  | .error _, .ok _ => .isFalse (by intro hc; cases hc)

/-- Errors raised by the normalization pipeline. The Python code raises
TypeError with a distinct message at two sites (too many tokens in
split_dtype_and_args; unknown name in convert_to_representative and
convert_to_numpy_dtype) and ValueError from int() on a non-numeric
token; the three raise sites are kept apart here. -/
inductive DtypeError where
  | tooManyArguments (s : String)
  | invalidIntLiteral (s : String)
  | unknownType (s : String)
deriving DecidableEq, Repr

/-- Decimal digit run, as Python int() reads one: none on an empty run
or a non-digit character (underscore grouping and non-ASCII digits are
not modelled; no token of a type string uses them). -/
def pyDigits? (cs : List Char) : Option Nat :=
  if cs ≠ [] ∧ cs.all Char.isDigit then
    some (cs.foldl (fun n c => 10 * n + (c.toNat - 48)) 0)
  else none

/-- Python int() applied to a token produced by the splitter: an
optional sign followed by decimal digits. None models the ValueError
raise. -/
def pyInt? (s : String) : Option Int :=
  match s.data with
  | '-' :: rest => (pyDigits? rest).map (fun n => -(n : Int))
  | '+' :: rest => (pyDigits? rest).map (fun n => (n : Int))
  | cs => (pyDigits? cs).map (fun n => (n : Int))

/-- Splitting of a character list at every separator character, keeping
empty segments, as re.split does. -/
def splitCharsAux (p : Char → Bool) : List Char → List Char → List String
  | [], acc => [⟨acc.reverse⟩]
  | c :: cs, acc =>
    if p c then ⟨acc.reverse⟩ :: splitCharsAux p cs []
    else splitCharsAux p cs (c :: acc)

/-- Tokenization of helpers.py lines 199-201: re.split on the character
class of round brackets, comma and space, keeping only the non-empty
pieces. -/
def pySplitDtype (s : String) : List String :=
  (splitCharsAux (fun c => c == '(' || c == ')' || c == ',' || c == ' ') s.data []).filter
    (fun t => t ≠ "")

/-- Python str.lower, on the ASCII inputs the tables use. -/
def pyLower (s : String) : String := ⟨s.data.map Char.toLower⟩

/-- Embedding of split_dtype_and_args (helpers.py lines 180-211): one
token gives no arguments, two or three tokens parse the trailing tokens
with int(), anything else (including zero tokens) raises the
too-many-arguments TypeError. A missing argument is None, mirroring the
np.nan placeholder. -/
def split_dtype_and_args (column_dtype : String) :
    Except DtypeError (String × Option Int × Option Int) :=
  match pySplitDtype column_dtype with
  | [d] => .ok (d, none, none)
  | [d, a1] =>
    match pyInt? a1 with
    | some n1 => .ok (d, some n1, none)
    | none => .error (.invalidIntLiteral a1)
  | [d, a1, a2] =>
    match pyInt? a1 with
    | some n1 =>
      match pyInt? a2 with
      | some n2 => .ok (d, some n1, some n2)
      | none => .error (.invalidIntLiteral a2)
    | none => .error (.invalidIntLiteral a1)
  | _ => .error (.tooManyArguments column_dtype)

/-- The alias table of helpers.py lines 140-152: representative name and
its recognized spellings, in source order. -/
def redshift_dtypes : List (String × List String) :=
  [("smallint", ["smallint", "int2"]),
   ("integer", ["integer", "int", "int4"]),
   ("bigint", ["bigint", "int8"]),
   ("decimal", ["decimal", "numeric"]),
   ("real", ["real", "float4"]),
   ("double precision", ["double precision", "float8", "float"]),
   ("boolean", ["boolean", "bool"]),
   ("char", ["char", "character", "nchar", "bpchar"]),
   ("varchar", ["varchar", "character varying", "nvarchar", "text"]),
   ("date", ["date"]),
   ("timestamp", ["timestamp", "timestamp without time zone"])]

/-- The kind table of helpers.py lines 155-162: numpy dtype name and the
representatives it covers. -/
def mapping_dtypes : List (String × List String) :=
  [("np.int16", ["smallint"]),
   ("np.int32", ["integer"]),
   ("np.int64", ["bigint"]),
   ("np.float32", ["real"]),
   ("np.float64", ["decimal", "double precision"]),
   ("np.str_", ["boolean", "char", "varchar", "date", "timestamp"])]

/-- The category table of helpers.py lines 165-169. -/
def category_dtype : List (String × List String) :=
  [("int_type", ["np.int8", "np.int16", "np.int32", "np.int64"]),
   ("float_type", ["np.float32", "np.float64"]),
   ("object_type", ["np.str_"])]

/-- The declared integer ranges of helpers.py lines 172-177. -/
def int_range : List (String × (Int × Int)) :=
  [("np.int8", (-128, 127)),
   ("np.int16", (-32768, 32767)),
   ("np.int32", (-2147483648, 2147483647)),
   ("np.int64", (-9223372036854775808, 9223372036854775807))]

/-- Embedding of convert_to_representative (helpers.py lines 213-235):
first alias class containing the name wins; an unknown name raises. -/
def convert_to_representative (column_dtype : String) : Except DtypeError String :=
  match redshift_dtypes.find? (fun p => p.2.contains column_dtype) with
  | some p => .ok p.1
  | none => .error (.unknownType column_dtype)

/-- Embedding of convert_to_numpy_dtype (helpers.py lines 238-258). -/
def convert_to_numpy_dtype (column_dtype : String) : Except DtypeError String :=
  match mapping_dtypes.find? (fun p => p.2.contains column_dtype) with
  | some p => .ok p.1
  | none => .error (.unknownType column_dtype)

/-- Embedding of get_2args (helpers.py lines 261-276): lowercase, then
split. -/
def get_2args (column_dtype : String) :
    Except DtypeError (String × Option Int × Option Int) :=
  split_dtype_and_args (pyLower column_dtype)

/-- Embedding of convert_redshift_to_numpy_dtypes (helpers.py lines
278-291): take the base token of the split and run the two lookups. -/
def convert_redshift_to_numpy_dtypes (column_dtype : String) : Except DtypeError String := do
  let (redshift_dtype, _, _) ← get_2args column_dtype
  let r ← convert_to_representative redshift_dtype
  convert_to_numpy_dtype r

/-- Embedding of convert_redshift_to_numpy_dtypes_with_2args (helpers.py
lines 293-310): the numpy dtype name paired with the two (possibly
absent) parsed arguments. The source re-runs the converter on the bare
base token, which is kept here. -/
def convert_redshift_to_numpy_dtypes_with_2args (column_dtype : String) :
    Except DtypeError (String × Option Int × Option Int) := do
  let (rsdtype, a1, a2) ← get_2args column_dtype
  let nd ← convert_redshift_to_numpy_dtypes rsdtype
  pure (nd, a1, a2)

/-- The value part of the one-key dict produced by the range step:
a byte bound for object kinds, a min-max range for integer kinds, the
empty dict for float kinds, and the untouched argument list when no
category matches (the source if-chain has no else branch; this case is
unreachable from the tables above). -/
inductive DtypeVal where
  | bytes (n : Int)
  | range (min max : Int)
  | empty
  | args (a1 a2 : Option Int)
deriving DecidableEq, Repr

/-- Embedding of convert_redshift_to_numpy_dtypes_with_range (helpers.py
lines 312-351): object kinds get the first argument as byte bound, or 64
when it is absent; integer kinds get the declared range from int_range
(the lookup cannot miss: every int_type name is an int_range key, so the
default is unreachable); float kinds get the empty bound. -/
def convert_redshift_to_numpy_dtypes_with_range (column_dtype : String) :
    Except DtypeError (String × DtypeVal) := do
  let (nd, a1, a2) ← convert_redshift_to_numpy_dtypes_with_2args column_dtype
  if ((category_dtype.lookup "object_type").getD []).contains nd then
    match a1 with
    | none => pure (nd, .bytes 64)
    | some n => pure (nd, .bytes n)
  else if ((category_dtype.lookup "int_type").getD []).contains nd then
    pure (nd, .range ((int_range.lookup nd).getD (0, 0)).1 ((int_range.lookup nd).getD (0, 0)).2)
  else if ((category_dtype.lookup "float_type").getD []).contains nd then
    pure (nd, .empty)
  else
    pure (nd, .args a1 a2)

/-- Embedding of dtype_converter (helpers.py lines 354-412): widen every
integer kind to np.int64 and every float kind to np.float64, keeping the
derived bound unchanged. -/
def dtype_converter (column_dtype : String) : Except DtypeError (String × DtypeVal) := do
  let (dtype, ranges) ← convert_redshift_to_numpy_dtypes_with_range column_dtype
  if ((category_dtype.lookup "int_type").getD []).contains dtype then
    pure ("np.int64", ranges)
  else if ((category_dtype.lookup "float_type").getD []).contains dtype then
    pure ("np.float64", ranges)
  else
    pure (dtype, ranges)

/-! ## checktable.py — the table model -/

/-- A loaded table cell: null (NaN after loading), a numeric value
(integer columns carry integral magnitudes; modelled as Int), or a text
value. -/
inductive Cell where
  | null
  | int (i : Int)
  | str (s : String)
deriving DecidableEq, Repr

/-- The dtype entry dtype_converter stores into self.dinfo, fused into
one constructor per reachable shape: dtype_converter only ever produces
the key np.int64 with a min-max range, np.float64 with the empty bound,
or np.str_ with a byte bound, so the string key determines the shape of
the value dict. -/
inductive NpDtype where
  | int64 (min max : Int)
  | float64
  | str_ (bytes : Int)
deriving DecidableEq, Repr

/-- One column of a CheckTable: its self.dinfo entry (pk flag, not-null
flag, converted dtype) together with its loaded cells. The keys of
self.dinfo and the columns of self.df are the same ordered list of
distinct names, so iterating entries is iterating df.columns with the
dict lookups resolved. -/
structure ColEntry where
  name : String
  pk : Nat
  not_null_constraint : Nat
  dtype : NpDtype
  cells : List Cell
deriving DecidableEq, Repr

/-- The CheckTable state after loading: the ordered column entries. -/
structure CheckTable where
  cols : List ColEntry
deriving DecidableEq, Repr

/-- Row count, len(self.df): the common length of the columns. -/
def CheckTable.numRows (t : CheckTable) : Nat :=
  match t.cols with
  | [] => 0
  | e :: _ => e.cells.length

/-- Numeric values of a column, nulls dropped, as Series.abs().max()
consumes them. -/
def intCells (cs : List Cell) : List Int :=
  cs.filterMap (fun c => match c with | .int i => some i | _ => none)

/-- Text values of a column: the .str accessor maps every non-string
element (nulls included) to NaN, which .max() then skips. -/
def strCells (cs : List Cell) : List String :=
  cs.filterMap (fun c => match c with | .str s => some s | _ => none)

/-- Maximum of a list of naturals, none when the list is empty (pandas
.max() on an all-NaN series yields NaN). -/
def listMaxNat : List Nat → Option Nat
  | [] => none
  | x :: xs => some (xs.foldl max x)

/-- Result of max_size_of: an integer size, the float NaN that .max()
returns on an all-null column, or Python None for float columns. -/
inductive MaxSize where
  | val (n : Nat)
  | nan
  | none_
deriving DecidableEq, Repr

/-- Embedding of CheckTable.max_size_of (checktable.py lines 182-205):
int64 columns give the maximum absolute value of the non-null cells,
np.str_ columns the maximum utf-8 byte length of the non-null cells,
both falling back to the NaN sentinel when no value remains; float
columns give None. -/
def ColEntry.max_size_of (e : ColEntry) : MaxSize :=
  match e.dtype with
  | .int64 _ _ =>
    match listMaxNat ((intCells e.cells).map Int.natAbs) with
    | some m => .val m
    | none => .nan
  | .str_ _ =>
    match listMaxNat ((strCells e.cells).map String.utf8ByteSize) with
    | some m => .val m
    | none => .nan
  | .float64 => .none_

/-- Embedding of CheckTable.max_sizes (checktable.py lines 207-224): the
loop fills every key of the result dict, in df.columns order. -/
def CheckTable.max_sizes (t : CheckTable) : List (String × MaxSize) :=
  t.cols.map (fun e => (e.name, e.max_size_of))

/-- The Python comparison size > bound used by size_error: NaN compares
false against anything; the None case never reaches a comparison
because float columns match neither dtype key. -/
def msGtInt : MaxSize → Int → Bool
  | .val n, b => (n : Int) > b
  | .nan, _ => false
  | .none_, _ => false

/-- Embedding of CheckTable.size_error (checktable.py lines 226-244):
walk max_sizes in order, appending a column name when its dtype key is
np.str_ and the size exceeds the byte bound, or np.int64 and the size
exceeds the upper range bound; other keys append nothing. -/
def CheckTable.size_error (t : CheckTable) : List String :=
  t.cols.filterMap (fun e =>
    match e.dtype with
    | .str_ b => if msGtInt e.max_size_of b then some e.name else none
    | .int64 _ mx => if msGtInt e.max_size_of mx then some e.name else none
    | .float64 => none)

/-- Embedding of CheckTable.count_nan_of (checktable.py lines 246-254):
the number of null cells. -/
def count_nan_of (cells : List Cell) : Nat :=
  (cells.filter (fun c => c == .null)).length

/-- Python dict assignment d[k] = v on an ordered association list: an
existing key keeps its position, a new key is appended. -/
def dictSet {α : Type} (d : List (String × α)) (k : String) (v : α) : List (String × α) :=
  if d.any (fun p => p.1 == k) then
    d.map (fun p => if p.1 == k then (k, v) else p)
  else d ++ [(k, v)]

/-- Embedding of CheckTable.count_nan (checktable.py lines 256-274): a
dict comprehension first creates a placeholder entry (modelled none) for
every column whose not_null_constraint equals 1, then a second loop
assigns the null count for every column whose flag is truthy. -/
def CheckTable.count_nan (t : CheckTable) : List (String × Option Nat) :=
  let init : List (String × Option Nat) :=
    t.cols.filterMap (fun e =>
      if e.not_null_constraint == 1 then some (e.name, none) else none)
  t.cols.foldl (fun acc e =>
      if e.not_null_constraint != 0 then dictSet acc e.name (some (count_nan_of e.cells))
      else acc)
    init

/-- Embedding of CheckTable.not_null_constraint_error (checktable.py
lines 276-288): the count_nan keys whose count is strictly positive. A
surviving placeholder would make Python raise on the comparison with 0;
it cannot survive when the flags are 0 or 1. -/
def CheckTable.not_null_constraint_error (t : CheckTable) : List String :=
  t.count_nan.filterMap (fun p =>
    match p.2 with
    | some n => if 0 < n then some p.1 else none
    | none => none)

/-- The columns flagged as superkey members, in column order
(checktable.py lines 297-300; the flag test is Python truthiness). -/
def CheckTable.superkeyCols (t : CheckTable) : List String :=
  t.cols.filterMap (fun e => if e.pk != 0 then some e.name else none)

/-- Lookup of a column entry by name. -/
def CheckTable.col? (t : CheckTable) (name : String) : Option ColEntry :=
  t.cols.find? (fun e => e.name == name)

/-- Cell of a named column at a row index. -/
def CheckTable.cellAt (t : CheckTable) (name : String) (i : Nat) : Cell :=
  match t.col? name with
  | some e => e.cells.getD i .null
  | none => .null

/-- The value tuple of each row over the given key columns. -/
def CheckTable.keyProjections (t : CheckTable) (names : List String) : List (List Cell) :=
  (List.range t.numRows).map (fun i => names.map (fun n => t.cellAt n i))

/-- Row count of self.df[names].drop_duplicates(). With at least one
selected column, pandas keeps one row per distinct key tuple (NaN keys
compare equal to each other there). With no selected column the frame
has DataFrame.empty true, and DataFrame.drop_duplicates returns an
unchanged copy, keeping every row. -/
def CheckTable.drop_duplicates_len (t : CheckTable) (names : List String) : Nat :=
  if names.isEmpty then t.numRows
  else (t.keyProjections names).dedup.length

/-- Embedding of CheckTable.superkey_error (checktable.py lines
290-301): true when the deduplicated key projection does not have
exactly one row per table row. -/
def CheckTable.superkey_error (t : CheckTable) : Bool :=
  !(t.numRows == t.drop_duplicates_len t.superkeyCols)

/-- The dtype strings self.dinfo holds after conversion, keyed by
column; eval turns such a string into the numpy type object it names,
and type objects are represented here by those names. -/
def np_eval (s : String) : String := s

/-- Embedding of the loader dtype preparation (checktable.py lines
164-172): dtypes maps each column to the eval of its dtype key, the
placeholder dict maps every column to the empty string, and the loop
body consists of two comparison statements, evaluated and discarded, so
it changes nothing. -/
def dtypes_cover_missing_values (dinfo : List (String × String)) : List (String × String) :=
  let dtypes := dinfo.map (fun p => (p.1, np_eval p.2))
  let init := dtypes.map (fun p => (p.1, ""))
  dtypes.foldl (fun acc p =>
    if p.2 == "np.int64" then
      acc
    else
      acc) init

/-- Modelled from the spec: the mapping the comment at checktable.py
lines 162-163 documents and spec section 3 states (integer columns
loaded as floating-point to tolerate embedded nulls, other columns kept
as their normalized dtype); the loop above was meant to build this. -/
def dtypes_cover_missing_values_intended (dinfo : List (String × String)) :
    List (String × String) :=
  dinfo.map (fun p => (p.1, if p.2 == "np.int64" then "np.float64" else np_eval p.2))

/-! ## Spec-side definitions and concrete tables used by the theorems -/

/-- Observed maximum utf-8 byte length over the non-null text values of
a column, absent when there is none (spec wording for the text kind in
sizeErrorColumns). -/
def textMaxBytes (cells : List Cell) : Option Nat :=
  listMaxNat ((strCells cells).map String.utf8ByteSize)

/-- Observed maximum absolute value over the non-null numeric values of
a column, absent when there is none (spec wording for the integer kind
in sizeErrorColumns). -/
def intMaxAbs (cells : List Cell) : Option Nat :=
  listMaxNat ((intCells cells).map Int.natAbs)

/-- Stated from the claim wording: a column has a size error when its
observed maximum size strictly exceeds its type bound — byte length
against maxBytes for the text kind, absolute value against the upper
range bound for the integer kind; the float kind never violates, and a
column with no observed value never violates. -/
def sizeViolation (e : ColEntry) : Bool :=
  match e.dtype with
  | .str_ b =>
    match textMaxBytes e.cells with
    | some m => (m : Int) > b
    | none => false
  | .int64 _ mx =>
    match intMaxAbs e.cells with
    | some m => (m : Int) > mx
    | none => false
  | .float64 => false

/-- Two-column superkey fixture with all pairwise tuples distinct. -/
def tKeyDistinct : CheckTable := ⟨[
  ⟨"a", 1, 0, .str_ 64, [.str "x", .str "x", .str "y"]⟩,
  ⟨"b", 1, 0, .int64 (-32768) 32767, [.int 1, .int 2, .int 2]⟩]⟩

/-- Two-row fixture with no column flagged as a superkey member. -/
def tNoKey : CheckTable :=
  ⟨[⟨"a", 0, 0, .float64, [.int 1, .int 2]⟩]⟩

/-- An entirely null integer column with an arbitrary bound. -/
def allNullCol : ColEntry :=
  ⟨"all_null", 0, 1, .int64 (-32768) 32767, [.null, .null]⟩

/-- Fixture holding an oversized text column next to the all-null
column. -/
def tAllNull : CheckTable := ⟨[
  ⟨"color_name", 1, 1, .str_ 16, [.str "a", .str "seventeen-bytes17"]⟩,
  allNullCol]⟩

/-- Fixture for the null-count checks: one not-null column without
nulls, one with a null, one unconstrained column with a null. -/
def tNan : CheckTable := ⟨[
  ⟨"hex", 0, 1, .str_ 7, [.str "#cd5c5c", .str "#f08080"]⟩,
  ⟨"rgb", 0, 1, .str_ 11, [.str "205,92,92", .null]⟩,
  ⟨"free", 0, 0, .float64, [.null, .null]⟩]⟩

/-! ## Theorems -/

/-- Pointwise form of the size_error loop body. -/
theorem sizeEntry_eq (e : ColEntry) :
    (match e.dtype with
     | .str_ b => if msGtInt e.max_size_of b then some e.name else none
     | .int64 _ mx => if msGtInt e.max_size_of mx then some e.name else none
     | .float64 => none)
    = (if sizeViolation e then some e.name else none) := by
  rcases e with ⟨name, pk, nn, dt, cells⟩
  rcases dt with ⟨mn, mx⟩ | _ | b
  · simp only [ColEntry.max_size_of, sizeViolation]
    rcases h : intMaxAbs cells with _ | m
    · simp [intMaxAbs] at h
      simp [h, msGtInt]
    · simp [intMaxAbs] at h
      simp [h, msGtInt]
  · simp [sizeViolation]
  · simp only [ColEntry.max_size_of, sizeViolation]
    rcases h : textMaxBytes cells with _ | m
    · simp [textMaxBytes] at h
      simp [h, msGtInt]
    · simp [textMaxBytes] at h
      simp [h, msGtInt]

/-- The size-error list is the name list of the violating columns, in
column order. -/
theorem size_error_eq_filter (t : CheckTable) :
    t.size_error = (t.cols.filter sizeViolation).map (fun e => e.name) := by
  obtain ⟨cols⟩ := t
  simp only [CheckTable.size_error]
  induction cols with
  | nil => rfl
  | cons e rest ih =>
    rw [List.filterMap_cons, List.filter_cons, sizeEntry_eq]
    by_cases h : sizeViolation e
    · simp only [h, if_true, List.map_cons]
      rw [ih]
    · simp only [h, if_false, Bool.false_eq_true]
      rw [ih]

/-- C1: size_error() returns exactly the columns whose observed maximum
size strictly exceeds the type bound — utf-8 byte length against
maxBytes for text kinds, maximum absolute value against the upper range
bound for integer kinds (the lower bound is never consulted) — float
kinds never appear, and the list follows table column order. -/
theorem size_error_characterization (t : CheckTable) :
    t.size_error = (t.cols.filter sizeViolation).map (fun e => e.name) :=
  size_error_eq_filter t

/-- All-null columns produce no observed values. -/
theorem sizeViolation_all_null (e : ColEntry) (hnull : ∀ c ∈ e.cells, c = Cell.null) :
    sizeViolation e = false := by
  have hint : intCells e.cells = [] := by
    rw [intCells, List.filterMap_eq_nil_iff]
    intro c hc
    rw [hnull c hc]
  have hstr : strCells e.cells = [] := by
    rw [strCells, List.filterMap_eq_nil_iff]
    intro c hc
    rw [hnull c hc]
  rcases e with ⟨name, pk, nn, dt, cells⟩
  rcases dt with ⟨mn, mx⟩ | _ | b <;>
    simp_all [sizeViolation, intMaxAbs, textMaxBytes, listMaxNat]

/-- C10: a column all of whose cells are null never appears in
size_error(), whatever its bound: max_size_of yields the NaN sentinel
and NaN never compares greater than the bound. -/
theorem all_null_column_never_size_error (t : CheckTable) (e : ColEntry)
    (he : e ∈ t.cols) (hnull : ∀ c ∈ e.cells, c = Cell.null)
    (hnd : (t.cols.map (fun x => x.name)).Nodup) :
    e.name ∉ t.size_error := by
  rw [size_error_eq_filter]
  intro hmem
  obtain ⟨e2, he2, hname⟩ := List.mem_map.mp hmem
  have he2cols : e2 ∈ t.cols := (List.mem_filter.mp he2).1
  have hviol : sizeViolation e2 = true := (List.mem_filter.mp he2).2
  have heq : e2 = e := List.inj_on_of_nodup_map hnd he2cols he hname
  rw [heq, sizeViolation_all_null e hnull] at hviol
  exact Bool.false_ne_true hviol

/-- C10 witness: the all-null integer column of the fixture is not
reported, while the oversized text column is. -/
theorem all_null_column_never_size_error_witness :
    allNullCol.name ∉ tAllNull.size_error :=
  all_null_column_never_size_error tAllNull allNullCol (by decide) (by decide) (by decide)

/-- C2: with at least one column flagged as superkey member,
superkey_error() is true exactly when the number of distinct value
tuples over the flagged columns is strictly below the row count. -/
theorem superkey_error_strict_lt (t : CheckTable) (h : ∃ e ∈ t.cols, e.pk ≠ 0) :
    t.superkey_error = true ↔
      (t.keyProjections t.superkeyCols).toFinset.card < t.numRows := by
  have hne : t.superkeyCols ≠ [] := by
    obtain ⟨e, he, hpk⟩ := h
    intro hnil
    have hmem : e.name ∈ t.superkeyCols := by
      unfold CheckTable.superkeyCols
      refine List.mem_filterMap.mpr ⟨e, he, ?_⟩
      simp [hpk]
    rw [hnil] at hmem
    exact absurd hmem (List.not_mem_nil _)
  have hlen : (t.keyProjections t.superkeyCols).length = t.numRows := by
    unfold CheckTable.keyProjections
    rw [List.length_map, List.length_range]
  have hle : (t.keyProjections t.superkeyCols).dedup.length ≤ t.numRows :=
    hlen ▸ (List.dedup_sublist _).length_le
  unfold CheckTable.superkey_error CheckTable.drop_duplicates_len
  rw [if_neg (by simp [List.isEmpty_iff, hne])]
  rw [List.card_toFinset]
  constructor
  · intro hb
    have : ¬(t.numRows = (t.keyProjections t.superkeyCols).dedup.length) := by
      simpa using hb
    omega
  · intro hlt
    have : ¬(t.numRows = (t.keyProjections t.superkeyCols).dedup.length) := by omega
    simpa using this

/-- C2 witness: on the two-column fixture with all tuples distinct, both
sides of the equivalence are settled at once. -/
theorem superkey_error_strict_lt_witness :
    tKeyDistinct.superkey_error = true ↔
      (tKeyDistinct.keyProjections tKeyDistinct.superkeyCols).toFinset.card <
        tKeyDistinct.numRows :=
  superkey_error_strict_lt tKeyDistinct ⟨tKeyDistinct.cols.head (by decide), by decide⟩

/-- C9 counterexample: with no flagged column and two rows the claim
requires a violation, but superkey_error() reports none. -/
theorem empty_superkey_two_rows_no_error :
    (∀ e ∈ tNoKey.cols, e.pk = 0) ∧ tNoKey.numRows = 2 ∧ tNoKey.superkey_error = false := by
  refine ⟨?_, by decide, by decide⟩
  decide

/-- C9 amended: when no column is flagged as a superkey member,
superkey_error() returns false for every row count — the zero-column
projection keeps all rows under the pandas empty-frame rule, and the
code has no special case. -/
theorem superkey_error_empty_flag_false (t : CheckTable) (h : ∀ e ∈ t.cols, e.pk = 0) :
    t.superkey_error = false := by
  have hempty : t.superkeyCols = [] := by
    unfold CheckTable.superkeyCols
    rw [List.filterMap_eq_nil_iff]
    intro e he
    simp [h e he]
  unfold CheckTable.superkey_error CheckTable.drop_duplicates_len
  rw [hempty]
  simp

/-- C9 amended witness: the two-row unflagged fixture reports no
violation. -/
theorem superkey_error_empty_flag_false_witness :
    tNoKey.superkey_error = false :=
  superkey_error_empty_flag_false tNoKey (by decide)

/-- Keys created by the count_nan comprehension come from column
names. -/
theorem mem_nanInit_name {l : List ColEntry} {p : String × Option Nat}
    (hp : p ∈ l.filterMap (fun e =>
      if e.not_null_constraint == 1 then some (e.name, none) else none)) :
    p.1 ∈ l.map (fun e => e.name) := by
  obtain ⟨e, he, hfe⟩ := List.mem_filterMap.mp hp
  by_cases h : e.not_null_constraint == 1
  · rw [if_pos h] at hfe
    cases hfe
    exact List.mem_map.mpr ⟨e, he, rfl⟩
  · rw [if_neg h] at hfe
    cases hfe

/-- Assignment into an ordered dict whose key sits once in the middle
replaces that entry in place. -/
theorem dictSet_mid {α : Type} (a b : List (String × α)) (k : String) (v0 v : α)
    (ha : ∀ p ∈ a, p.1 ≠ k) (hb : ∀ p ∈ b, p.1 ≠ k) :
    dictSet (a ++ (k, v0) :: b) k v = a ++ (k, v) :: b := by
  unfold dictSet
  rw [if_pos]
  · rw [List.map_append, List.map_cons]
    have haa : a.map (fun p => if p.1 == k then (k, v) else p) = a := by
      have hid : ∀ p ∈ a, (if p.1 == k then (k, v) else p) = id p :=
        fun p hp => by simp [ha p hp]
      rw [List.map_congr_left hid, List.map_id]
    have hbb : b.map (fun p => if p.1 == k then (k, v) else p) = b := by
      have hid : ∀ p ∈ b, (if p.1 == k then (k, v) else p) = id p :=
        fun p hp => by simp [hb p hp]
      rw [List.map_congr_left hid, List.map_id]
    rw [haa, hbb]
    simp
  · exact List.any_eq_true.mpr ⟨(k, v0), by simp, by simp⟩

/-- The second count_nan loop turns every placeholder into the null
count of its column, provided the flags are 0 or 1 and the names are
distinct; entries in front whose keys name no listed column are left
alone. -/
theorem count_nan_loop (l : List ColEntry) (pre : List (String × Option Nat))
    (hflag : ∀ e ∈ l, e.not_null_constraint = 0 ∨ e.not_null_constraint = 1)
    (hnd : (l.map (fun e => e.name)).Nodup)
    (hpre : ∀ p ∈ pre, p.1 ∉ l.map (fun e => e.name)) :
    List.foldl (fun acc e =>
        if e.not_null_constraint != 0
        then dictSet acc e.name (some (count_nan_of e.cells)) else acc)
      (pre ++ l.filterMap (fun e =>
        if e.not_null_constraint == 1 then some (e.name, none) else none)) l
    = pre ++ l.filterMap (fun e =>
        if e.not_null_constraint == 1
        then some (e.name, some (count_nan_of e.cells)) else none) := by
  induction l generalizing pre with
  | nil => simp
  | cons e rest ih =>
    have hndr : (rest.map (fun e => e.name)).Nodup := (List.nodup_cons.mp hnd).2
    have hnotin : e.name ∉ rest.map (fun x => x.name) := (List.nodup_cons.mp hnd).1
    rcases hflag e (List.mem_cons_self e rest) with h0 | h1
    · -- flag 0: no placeholder, no assignment
      rw [List.filterMap_cons, List.filterMap_cons]
      rw [if_neg (by simp [h0]), if_neg (by simp [h0])]
      rw [List.foldl_cons, if_neg (by simp [h0])]
      exact ih pre (fun x hx => hflag x (List.mem_cons_of_mem e hx)) hndr
        (fun p hp => fun hc => hpre p hp (List.mem_cons_of_mem _ hc))
    · -- flag 1: placeholder created, then overwritten in place
      rw [List.filterMap_cons, List.filterMap_cons]
      rw [if_pos (by simp [h1]), if_pos (by simp [h1])]
      rw [List.foldl_cons, if_pos (by simp [h1])]
      have hstep : dictSet
          (pre ++ (e.name, (none : Option Nat)) :: rest.filterMap (fun x =>
            if x.not_null_constraint == 1 then some (x.name, none) else none))
          e.name (some (count_nan_of e.cells))
          = pre ++ (e.name, some (count_nan_of e.cells)) :: rest.filterMap (fun x =>
            if x.not_null_constraint == 1 then some (x.name, none) else none) := by
        apply dictSet_mid
        · intro p hp hc
          exact hpre p hp (by rw [hc]; exact List.mem_cons_self _ _)
        · intro p hp hc
          exact hnotin (hc ▸ mem_nanInit_name hp)
      rw [hstep]
      have hres := ih (pre ++ [(e.name, some (count_nan_of e.cells))])
        (fun x hx => hflag x (List.mem_cons_of_mem e hx)) hndr
        (by
          intro p hp
          rcases List.mem_append.mp hp with hl | hr
          · exact fun hc => hpre p hl (List.mem_cons_of_mem _ hc)
          · rw [List.mem_singleton.mp hr]
            exact hnotin)
      rw [List.append_assoc] at hres
      simpa using hres

/-- C7: count_nan() maps exactly the columns whose entry has
not_null_constraint equal to 1 to their null counts — other columns are
omitted entirely — and not_null_constraint_error() lists, in table
column order, exactly those of them whose null count is strictly
positive. -/
theorem count_nan_restriction_and_errors (t : CheckTable)
    (hflag : ∀ e ∈ t.cols, e.not_null_constraint = 0 ∨ e.not_null_constraint = 1)
    (hnd : (t.cols.map (fun e => e.name)).Nodup) :
    t.count_nan = t.cols.filterMap (fun e =>
      if e.not_null_constraint = 1
      then some (e.name, some (count_nan_of e.cells)) else none)
    ∧ t.not_null_constraint_error = t.cols.filterMap (fun e =>
      if e.not_null_constraint = 1 ∧ 0 < count_nan_of e.cells
      then some e.name else none) := by
  have h1 : t.count_nan = t.cols.filterMap (fun e =>
      if e.not_null_constraint == 1
      then some (e.name, some (count_nan_of e.cells)) else none) := by
    unfold CheckTable.count_nan
    have := count_nan_loop t.cols [] hflag hnd (by simp)
    simpa using this
  have h1d : t.count_nan = t.cols.filterMap (fun e =>
      if e.not_null_constraint = 1
      then some (e.name, some (count_nan_of e.cells)) else none) := by
    rw [h1]
    congr 1
    funext e
    by_cases h : e.not_null_constraint = 1 <;> simp [h]
  refine ⟨h1d, ?_⟩
  unfold CheckTable.not_null_constraint_error
  rw [h1d, List.filterMap_filterMap]
  congr 1
  funext e
  by_cases h : e.not_null_constraint = 1
  · by_cases hc : 0 < count_nan_of e.cells <;> simp [h, hc]
  · simp [h]

/-- C7 witness: on the fixture, only the two flagged columns are
counted and only the one with a null is reported. -/
theorem count_nan_restriction_and_errors_witness :
    tNan.count_nan = tNan.cols.filterMap (fun e =>
      if e.not_null_constraint = 1
      then some (e.name, some (count_nan_of e.cells)) else none)
    ∧ tNan.not_null_constraint_error = tNan.cols.filterMap (fun e =>
      if e.not_null_constraint = 1 ∧ 0 < count_nan_of e.cells
      then some e.name else none) :=
  count_nan_restriction_and_errors tNan (by decide) (by decide)

/-- C3: the multiword spellings listed in the alias table never survive
normalization — the tokenizer splits them on the space, then either
int() fails on the second word or the token count exceeds three — even
though the alias stage itself resolves them (last two conjuncts, matching
the repository tests of convert_to_representative), and the single-word
alias of the same class succeeds. -/
theorem multiword_alias_normalization_fails :
    dtype_converter "DOUBLE PRECISION" = .error (.invalidIntLiteral "precision")
    ∧ dtype_converter "character varying" = .error (.invalidIntLiteral "varying")
    ∧ dtype_converter "timestamp without time zone"
        = .error (.tooManyArguments "timestamp without time zone")
    ∧ dtype_converter "FLOAT8" = .ok ("np.float64", .empty)
    ∧ convert_to_representative "double precision" = .ok "double precision"
    ∧ convert_to_numpy_dtype "double precision" = .ok "np.float64" := by
  refine ⟨by decide, by decide, by decide, by decide, by decide, by decide⟩

/-- C4: normalize of SMALLINT yields the widened np.int64 kind while the
retained bound is the declared 16-bit range, not the 64-bit range. -/
theorem smallint_widened_kind_retained_bound :
    dtype_converter "SMALLINT" = .ok ("np.int64", .range (-32768) 32767)
    ∧ dtype_converter "SMALLINT"
        ≠ .ok ("np.int64", .range (-9223372036854775808) 9223372036854775807) := by
  refine ⟨by decide, by decide⟩

/-- C5 counterexample: normalize of bigint and of smallint do not agree,
because the retained bounds differ. -/
theorem bigint_smallint_not_equal :
    dtype_converter "bigint" ≠ dtype_converter "smallint" := by decide

/-- C5 amended: bigint and smallint normalize to the same widened
integer kind np.int64, but each keeps the bound of its declared width,
so the bounds differ. -/
theorem bigint_smallint_same_kind_different_bound :
    dtype_converter "bigint"
      = .ok ("np.int64", .range (-9223372036854775808) 9223372036854775807)
    ∧ dtype_converter "smallint" = .ok ("np.int64", .range (-32768) 32767)
    ∧ DtypeVal.range (-9223372036854775808) 9223372036854775807
        ≠ DtypeVal.range (-32768) 32767 := by
  refine ⟨by decide, by decide, by decide⟩

/-- C8: any type string tokenizing to more than three pieces (base name
plus more than two arguments) fails with the too-many-arguments error;
with zero, one or two numeric arguments tokenization succeeds and a
missing argument is represented as absent, not zero. -/
theorem too_many_arguments_rejected :
    (∀ s : String, 4 ≤ (pySplitDtype s).length →
      split_dtype_and_args s = .error (.tooManyArguments s))
    ∧ dtype_converter "DECIMAL(11,4,5)" = .error (.tooManyArguments "decimal(11,4,5)")
    ∧ split_dtype_and_args "decimal(11,4)" = .ok ("decimal", some 11, some 4)
    ∧ split_dtype_and_args "char(64)" = .ok ("char", some 64, none)
    ∧ split_dtype_and_args "bigint" = .ok ("bigint", none, none) := by
  refine ⟨?_, by decide, by decide, by decide, by decide⟩
  intro s hlen
  unfold split_dtype_and_args
  rcases h : pySplitDtype s with _ | ⟨a, _ | ⟨b, _ | ⟨c, _ | _⟩⟩⟩ <;>
    first
      | rfl
      | (exfalso; rw [h] at hlen; simp at hlen)

/-- C8 witness: the three-argument decimal string hits the error
branch. -/
theorem too_many_arguments_rejected_witness :
    split_dtype_and_args "decimal(11,4,5)" = .error (.tooManyArguments "decimal(11,4,5)") :=
  too_many_arguments_rejected.1 "decimal(11,4,5)" (by decide)

/-- C6: the loader does not coerce integer columns to np.float64 — the
loop body compares instead of assigning, so every column keeps the empty
placeholder — while the mapping documented by the source comment and the
spec sends the integer column to np.float64. -/
theorem integer_dtype_coercion_noop :
    dtypes_cover_missing_values [("c", "np.int64")] = [("c", "")]
    ∧ dtypes_cover_missing_values_intended [("c", "np.int64")] = [("c", "np.float64")]
    ∧ dtypes_cover_missing_values [("c", "np.int64")]
        ≠ dtypes_cover_missing_values_intended [("c", "np.int64")] := by
  refine ⟨by decide, by decide, by decide⟩
